import Mathlib

/-!
Shallow embedding of the deterministic technical-analysis core of the
AI-Trading-ML repository (src/backend/app/core/advanced_analysis.py,
src/backend/app/core/indicators.py, src/backend/app/core/market_structure.py,
src/backend/app/agents/predict_agent.py).

Python floats are modelled as rationals (ℚ); Python dicts with fixed keys are
modelled as structures; a key that may be absent is an `Option` field; a raised
exception is `Option.none` at the function's result type.
-/

namespace AITrading

/-- Python's negative-range slice `l[-n:]`: the last `n` elements (all of `l`
when it is shorter). -/
def takeLast {α : Type} (n : ℕ) (l : List α) : List α :=
  l.drop (l.length - n)

/-- Round a rational to the nearest integer, ties to even — the rounding rule
of Python's built-in `round`. -/
def roundHalfEven (x : ℚ) : ℤ :=
  if Int.fract x < 1/2 then ⌊x⌋
  else if 1/2 < Int.fract x then ⌊x⌋ + 1
  else if Even ⌊x⌋ then ⌊x⌋ else ⌊x⌋ + 1

/-- Python's `round(x, 2)` (two decimal places, ties to even), modelled over ℚ. -/
def pyRound2 (x : ℚ) : ℚ :=
  (roundHalfEven (x * 100) : ℚ) / 100

/-- The dict returned by `AdvancedAnalysis.calculate_fibonacci_levels`: ten
fixed keys, always all present. -/
structure FibLevels where
  fib_0 : ℚ
  fib_236 : ℚ
  fib_382 : ℚ
  fib_500 : ℚ
  fib_618 : ℚ
  fib_786 : ℚ
  fib_100 : ℚ
  fib_1272 : ℚ
  fib_1618 : ℚ
  fib_2618 : ℚ
deriving DecidableEq, Repr

/-- `AdvancedAnalysis.calculate_fibonacci_levels(high, low, trend)`
(advanced_analysis.py lines 21-70). -/
def calculate_fibonacci_levels (high low : ℚ) (trend : String) : FibLevels :=
  let diff := high - low
  if trend = "bullish" then
    { fib_0 := high
      fib_236 := high - diff * 0.236
      fib_382 := high - diff * 0.382
      fib_500 := high - diff * 0.500
      fib_618 := high - diff * 0.618
      fib_786 := high - diff * 0.786
      fib_100 := low
      fib_1272 := high + diff * 0.272
      fib_1618 := high + diff * 0.618
      fib_2618 := high + diff * 1.618 }
  else
    { fib_0 := low
      fib_236 := low + diff * 0.236
      fib_382 := low + diff * 0.382
      fib_500 := low + diff * 0.500
      fib_618 := low + diff * 0.618
      fib_786 := low + diff * 0.786
      fib_100 := high
      fib_1272 := low - diff * 0.272
      fib_1618 := low - diff * 0.618
      fib_2618 := low - diff * 1.618 }

/-- The dict returned by `AdvancedAnalysis.calculate_pivot_points`: the keys
PP, R1-R3, S1-S3 are always present; R4/S4 only on the camarilla branch, hence
`Option`. -/
structure PivotPoints where
  PP : ℚ
  R1 : ℚ
  R2 : ℚ
  R3 : ℚ
  S1 : ℚ
  S2 : ℚ
  S3 : ℚ
  R4 : Option ℚ
  S4 : Option ℚ
deriving DecidableEq, Repr

/-- `AdvancedAnalysis.calculate_pivot_points(high, low, close, method)`
(advanced_analysis.py lines 72-136); an unrecognised method falls through to
the final `else` where every level equals the pivot `(h+l+c)/3`. -/
def calculate_pivot_points (high low close : ℚ) (method : String) : PivotPoints :=
  if method = "classic" then
    let pp := (high + low + close) / 3
    { PP := pp
      R1 := 2 * pp - low
      S1 := 2 * pp - high
      R2 := pp + (high - low)
      S2 := pp - (high - low)
      R3 := high + 2 * (pp - low)
      S3 := low - 2 * (high - pp)
      R4 := none
      S4 := none }
  else if method = "woodie" then
    let pp := (high + low + 2 * close) / 4
    { PP := pp
      R1 := 2 * pp - low
      S1 := 2 * pp - high
      R2 := pp + (high - low)
      S2 := pp - (high - low)
      R3 := high + 2 * (pp - low)
      S3 := low - 2 * (high - pp)
      R4 := none
      S4 := none }
  else if method = "camarilla" then
    let pp := (high + low + close) / 3
    { PP := pp
      R1 := close + (high - low) * 1.1 / 12
      R2 := close + (high - low) * 1.1 / 6
      R3 := close + (high - low) * 1.1 / 4
      S1 := close - (high - low) * 1.1 / 12
      S2 := close - (high - low) * 1.1 / 6
      S3 := close - (high - low) * 1.1 / 4
      R4 := some (close + (high - low) * 1.1 / 2)
      S4 := some (close - (high - low) * 1.1 / 2) }
  else
    let pp := (high + low + close) / 3
    { PP := pp, R1 := pp, R2 := pp, R3 := pp
      S1 := pp, S2 := pp, S3 := pp, R4 := none, S4 := none }

/-- A candle as consumed by `find_fair_value_gaps`, which reads only the
`high` and `low` keys. -/
structure Candle where
  high : ℚ
  low : ℚ
deriving DecidableEq, Repr

/-- A fair-value-gap record as built by `find_fair_value_gaps`. -/
structure FVG where
  type : String
  top : ℚ
  bottom : ℚ
  mid : ℚ
  size : ℚ
deriving DecidableEq, Repr

/-- One iteration of the `find_fair_value_gaps` loop body at interior index i:
`prev` is `recent_candles[i-1]` and `nxt` is `recent_candles[i+1]`; the bullish
test runs first, then the bearish test (advanced_analysis.py lines 231-256). -/
def fvgsAt (prev nxt : Candle) : List FVG :=
  (if prev.high < nxt.low then
    [{ type := "bullish"
       top := nxt.low
       bottom := prev.high
       mid := (nxt.low + prev.high) / 2
       size := nxt.low - prev.high }]
  else []) ++
  (if prev.low > nxt.high then
    [{ type := "bearish"
       top := prev.low
       bottom := nxt.high
       mid := (prev.low + nxt.high) / 2
       size := prev.low - nxt.high }]
  else [])

/-- The `for i in range(1, len(recent_candles) - 1)` loop of
`find_fair_value_gaps`, walking consecutive (i-1, i, i+1) windows in order. -/
def collectFVGs : List Candle → List FVG
  | p :: c :: n :: rest => fvgsAt p n ++ collectFVGs (c :: n :: rest)
  | _ => []

/-- `AdvancedAnalysis.find_fair_value_gaps(candles, lookback)`
(advanced_analysis.py lines 206-258): empty result when
`len(candles) < lookback + 2`; otherwise scan the last `lookback` candles and
keep the 5 most recent gaps (`fvgs[-5:]`, and `[] if fvgs else []` agree on the
empty list). -/
def find_fair_value_gaps (candles : List Candle) (lookback : ℕ) : List FVG :=
  if candles.length < lookback + 2 then []
  else takeLast 5 (collectFVGs (takeLast lookback candles))

/-- The fib-levels dict as consumed by `calculate_optimal_entry` and
`calculate_multi_tp_levels`: those functions test membership of exactly the
keys fib_500, fib_618, fib_1272 and fib_1618, so a possibly-partial dict is
modelled by these four optional fields (`none` = key absent). -/
structure FibDict where
  fib_500 : Option ℚ
  fib_618 : Option ℚ
  fib_1272 : Option ℚ
  fib_1618 : Option ℚ
deriving DecidableEq, Repr

/-- The empty fib dict `{}`. -/
def emptyFibDict : FibDict :=
  { fib_500 := none, fib_618 := none, fib_1272 := none, fib_1618 := none }

/-- An order block as consumed by `calculate_optimal_entry`, which reads only
the `type` and `zone` keys. -/
structure OrderBlock where
  type : String
  zone : ℚ
deriving DecidableEq, Repr

/-- An entry-candidate dict of `calculate_optimal_entry`. -/
structure EntryCandidate where
  price : ℚ
  reason : String
  confidence : ℤ
deriving DecidableEq, Repr

/-- The candidate list `calculate_optimal_entry` accumulates before the
fallback test: fib_618 (confidence 90), then fib_500 (75), then the
matching-direction order blocks (85), in that order
(advanced_analysis.py lines 284-344; any direction other than "BULLISH" takes
the bearish branch). -/
def baseEntryCandidates (direction : String) (fib_levels : FibDict)
    (order_blocks : List OrderBlock) : List EntryCandidate :=
  let bull := direction = "BULLISH"
  (match fib_levels.fib_618 with
   | some p =>
     [{ price := p
        reason := if bull then "Fibonacci 0.618 golden ratio pullback"
                  else "Fibonacci 0.618 golden ratio rally"
        confidence := 90 }]
   | none => []) ++
  (match fib_levels.fib_500 with
   | some p => [{ price := p, reason := "Fibonacci 0.5 retracement", confidence := 75 }]
   | none => []) ++
  ((order_blocks.filter (fun ob => ob.type = (if bull then "bullish" else "bearish"))).map
    (fun ob =>
      { price := ob.zone
        reason := if bull then "Bullish order block (institutional zone)"
                  else "Bearish order block (institutional zone)"
        confidence := 85 }))

/-- The fallback candidate `calculate_optimal_entry` appends when the pool is
empty or the market condition is "trending" (advanced_analysis.py lines
313-319 and 346-351). -/
def fallbackCandidate (direction : String) (current_price : ℚ) : EntryCandidate :=
  { price := current_price
    reason := if direction = "BULLISH" then "Immediate entry (strong trend, no pullback expected)"
              else "Immediate entry (strong trend, no rally expected)"
    confidence := 70 }

/-- The full candidate pool of `calculate_optimal_entry`: base candidates plus
the fallback exactly when `not entry_candidates or market_condition == "trending"`. -/
def entryCandidates (current_price : ℚ) (direction : String) (fib_levels : FibDict)
    (order_blocks : List OrderBlock) (market_condition : String) : List EntryCandidate :=
  let base := baseEntryCandidates direction fib_levels order_blocks
  if base = [] ∨ market_condition = "trending" then
    base ++ [fallbackCandidate direction current_price]
  else base

/-- Stable insertion of a candidate into a list kept in descending confidence
order: the new element goes after existing elements of equal confidence, as
Python's stable `sort(key=..., reverse=True)` keeps earlier elements first. -/
def insertDescByConfidence (a : EntryCandidate) :
    List EntryCandidate → List EntryCandidate
  | [] => [a]
  | b :: l =>
    if b.confidence ≤ a.confidence then a :: b :: l
    else b :: insertDescByConfidence a l

/-- Python's stable `entry_candidates.sort(key=lambda x: x["confidence"], reverse=True)`. -/
def sortDescByConfidence (l : List EntryCandidate) : List EntryCandidate :=
  l.foldr insertDescByConfidence []

/-- `AdvancedAnalysis.calculate_optimal_entry` (advanced_analysis.py lines
260-360): sort the pool by confidence descending and return the first
candidate; the `else` default (confidence 60) is only reachable from an empty
pool. The `atr` argument is accepted and never used, as in the source. -/
def calculate_optimal_entry (current_price : ℚ) (direction : String)
    (fib_levels : FibDict) (order_blocks : List OrderBlock) (atr : ℚ)
    (market_condition : String) : EntryCandidate :=
  match sortDescByConfidence
      (entryCandidates current_price direction fib_levels order_blocks market_condition) with
  | best :: _ => best
  | [] => { price := current_price, reason := "Current market price", confidence := 60 }

/-- A take-profit dict of `calculate_multi_tp_levels`. The source stores the
ratio formatted as the string `"1:{rr}"` and a `reason` string; we keep the
numeric ratio and drop the free-text reason, which no computation reads. -/
structure TPLevel where
  level : ℕ
  price : ℚ
  rr : ℚ
  percentage : ℚ
deriving DecidableEq, Repr

/-- The risk-reward schedule selection of `calculate_multi_tp_levels`
(advanced_analysis.py lines 396-404). -/
def rrSchedule (market_condition : String) (confidence : ℤ) : List ℚ :=
  if market_condition = "volatile" ∨ confidence < 50 then [2, 3]
  else if market_condition = "trending" ∧ 70 ≤ confidence then [2, 3.5, 5]
  else [2, 3, 4]

/-- The inner `elif` of the Fibonacci-snapping test: fib_1618 within 2×ATR. -/
def snapTo1618 (tp atr : ℚ) (fib_levels : FibDict) : ℚ :=
  match fib_levels.fib_1618 with
  | some f => if |tp - f| < atr * 2 then f else tp
  | none => tp

/-- The Fibonacci-extension snapping of `calculate_multi_tp_levels`
(advanced_analysis.py lines 412-419 and 433-439, identical in both
directions): snap to fib_1272 when within 1×ATR, else to fib_1618 when within
2×ATR, else keep the raw target. -/
def snapToFib (tp atr : ℚ) (fib_levels : FibDict) : ℚ :=
  match fib_levels.fib_1272 with
  | some f => if |tp - f| < atr then f else snapTo1618 tp atr fib_levels
  | none => snapTo1618 tp atr fib_levels

/-- Python's `enumerate(l, i)`. -/
def enumFrom (i : ℕ) : List ℚ → List (ℕ × ℚ)
  | [] => []
  | a :: l => (i, a) :: enumFrom (i + 1) l

/-- `AdvancedAnalysis.calculate_multi_tp_levels` (advanced_analysis.py lines
362-449). Levels are numbered from 1 (`enumerate(rr_ratios, 1)`); prices and
percentages are rounded to 2 decimals. In Python `entry = 0` would raise
ZeroDivisionError in the percentage; here ℚ division by zero yields 0 — no
claim touches that case. -/
def calculate_multi_tp_levels (entry stop_loss : ℚ)
    (direction market_condition : String) (confidence : ℤ) (atr : ℚ)
    (fib_levels : FibDict) : List TPLevel :=
  let risk := |entry - stop_loss|
  let ratios := rrSchedule market_condition confidence
  if direction = "BULLISH" then
    (enumFrom 1 ratios).map (fun p =>
      let tp_price := snapToFib (entry + risk * p.2) atr fib_levels
      { level := p.1
        price := pyRound2 tp_price
        rr := p.2
        percentage := pyRound2 ((tp_price - entry) / entry * 100) })
  else
    (enumFrom 1 ratios).map (fun p =>
      let tp_price := snapToFib (entry - risk * p.2) atr fib_levels
      { level := p.1
        price := pyRound2 tp_price
        rr := p.2
        percentage := pyRound2 ((entry - tp_price) / entry * 100) })

/-- Consecutive differences `closes[i+1] - closes[i]`. -/
def deltas : List ℚ → List ℚ
  | a :: b :: rest => (b - a) :: deltas (b :: rest)
  | _ => []

/-- The gain part of a price change. -/
def gainOf (d : ℚ) : ℚ := max d 0

/-- The loss part of a price change. -/
def lossOf (d : ℚ) : ℚ := max (-d) 0

/-- One step of Wilder smoothing over (average gain, average loss). -/
def wilderStep (period : ℕ) (gl : ℚ × ℚ) (d : ℚ) : ℚ × ℚ :=
  ((gl.1 * ((period : ℚ) - 1) + gainOf d) / (period : ℚ),
   (gl.2 * ((period : ℚ) - 1) + lossOf d) / (period : ℚ))

/-- The seed of Wilder smoothing: the simple averages of gains and losses over
the first `period` deltas. -/
def wilderInit (closes : List ℚ) (period : ℕ) : ℚ × ℚ :=
  ((((deltas closes).take period).map gainOf).sum / (period : ℚ),
   (((deltas closes).take period).map lossOf).sum / (period : ℚ))

/-- Modelled from TA-Lib's RSI algorithm (Wilder smoothing), which
`indicators.calculate_rsi` calls: seed average gain/loss as the simple average
of the first `period` deltas, smooth over the remaining deltas, and output
`100·g/(g+l)` with 0 when `g+l = 0` (TA-Lib's zero-denominator branch). This
is the last (most recent) entry of `talib.RSI(closes, timeperiod=period)`. -/
def wilderRSI (closes : List ℚ) (period : ℕ) : ℚ :=
  let fin := ((deltas closes).drop period).foldl (wilderStep period) (wilderInit closes period)
  if fin.1 + fin.2 = 0 then 0 else 100 * fin.1 / (fin.1 + fin.2)

/-- `indicators.calculate_rsi(closes, period)` (indicators.py lines 10-23):
`talib.RSI` leaves the first `period` outputs NaN, so `rsi[-1]` is NaN iff
`len(closes) ≤ period`, and the NaN guard returns 50.0 there. On an empty
closes list `rsi[-1]` raises IndexError, and TA-Lib rejects `timeperiod < 2`
(TA_BAD_PARAM); a raised exception is `none`. -/
def calculate_rsi (closes : List ℚ) (period : ℕ) : Option ℚ :=
  if closes = [] then none
  else if period < 2 then none
  else if closes.length ≤ period then some 50
  else some (wilderRSI closes period)

/-- A swing point as consumed by `detect_choch_bos`, which reads only the
`type` and `price` keys. -/
structure Swing where
  type : String
  price : ℚ
deriving DecidableEq, Repr

/-- `len(l) >= 2 and l[-1] > l[-2]`. -/
def lastTwoRising (l : List ℚ) : Bool :=
  match l.reverse with
  | a :: b :: _ => decide (b < a)
  | _ => false

/-- `len(l) >= 2 and l[-1] < l[-2]`. -/
def lastTwoFalling (l : List ℚ) : Bool :=
  match l.reverse with
  | a :: b :: _ => decide (a < b)
  | _ => false

/-- `market_structure.detect_choch_bos(swings)` (market_structure.py lines
61-86), returning the pair (choch, bos). The comparison is restricted to the
swing points among the LAST FIVE swings (`swings[-5:]`); the choch component
is the placeholder `None` on every path. -/
def detect_choch_bos (swings : List Swing) : Option String × Option String :=
  if swings.length < 3 then (none, none)
  else
    let recent := takeLast 5 swings
    let recentHighs := (recent.filter (fun s => s.type = "high")).map Swing.price
    let recentLows := (recent.filter (fun s => s.type = "low")).map Swing.price
    if lastTwoRising recentHighs then (none, some "bullish")
    else if lastTwoFalling recentLows then (none, some "bearish")
    else (none, none)

/-- The behaviour claim C5 describes, following the claim's words: compare the
two most recent swing highs OF THE WHOLE LIST, then the two most recent swing
lows of the whole list — with no last-five-swings restriction. Kept for
comparison with `detect_choch_bos`. -/
def claimed_detect_choch_bos (swings : List Swing) : Option String × Option String :=
  if swings.length < 3 then (none, none)
  else
    let allHighs := (swings.filter (fun s => s.type = "high")).map Swing.price
    let allLows := (swings.filter (fun s => s.type = "low")).map Swing.price
    if lastTwoRising allHighs then (none, some "bullish")
    else if lastTwoFalling allLows then (none, some "bearish")
    else (none, none)

/-- The slice of `ta_data` that `calculate_confidence` reads: the primary
trend, primary RSI, market condition, and the trend labels of the
`multi_timeframe_analysis` map's values (in order); `len(multi_tf)` equals the
length of that list. -/
structure TAData where
  trend : String
  rsi : ℚ
  market_condition : String
  multi_tf_trends : List String
deriving DecidableEq, Repr

/-- The slice of `news_data` that `calculate_confidence` reads. -/
structure NewsData where
  sentiment : String
  news_impact : String
deriving DecidableEq, Repr

/-- `len(set(trends)) == 1 and trends[0] in ["bullish", "bearish"]`: the list
is nonempty, all entries equal the first, and the first is directional. -/
def allSameDirectional (trends : List String) : Bool :=
  match trends with
  | [] => false
  | t :: ts => ts.all (fun s => s = t) && (t = "bullish" || t = "bearish")

/-- `predict_agent.calculate_confidence(ta_data, news_data, prediction)`
(predict_agent.py lines 449-501), with `direction` standing for
`prediction.get("direction", "NEUTRAL")`. The +15 alignment bonus requires
`len(multi_tf) > 1`, i.e. strictly more than one analysed timeframe. -/
def calculate_confidence (ta : TAData) (news : NewsData) (direction : String) : ℤ :=
  let c1 : ℤ := 50
  let c2 := if ta.trend = "bullish" ∨ ta.trend = "bearish" then c1 + 10 else c1
  let c3 := if 70 < ta.rsi ∨ ta.rsi < 30 then c2 + 5 else c2
  let c4 := if ta.market_condition = "trending" then c3 + 10
            else if ta.market_condition = "volatile" then c3 - 10 else c3
  let c5 := if 1 < ta.multi_tf_trends.length ∧ allSameDirectional ta.multi_tf_trends = true
            then c4 + 15 else c4
  let c6 := if (news.sentiment = "bullish" ∧ direction = "BULLISH") ∨
               (news.sentiment = "bearish" ∧ direction = "BEARISH")
            then c5 + 10 else c5
  let c7 := if news.news_impact = "high" ∨ news.news_impact = "medium" then c6 + 5 else c6
  max 0 (min 100 c7)

/-- The scoring rule claim C9 describes, following the claim's words: identical
to `calculate_confidence` except that the +15 alignment bonus applies whenever
all analysed timeframes agree on a directional trend, INCLUDING when exactly
one timeframe was analysed. Kept for comparison with `calculate_confidence`. -/
def claimedConfidence (ta : TAData) (news : NewsData) (direction : String) : ℤ :=
  let c1 : ℤ := 50
  let c2 := if ta.trend = "bullish" ∨ ta.trend = "bearish" then c1 + 10 else c1
  let c3 := if 70 < ta.rsi ∨ ta.rsi < 30 then c2 + 5 else c2
  let c4 := if ta.market_condition = "trending" then c3 + 10
            else if ta.market_condition = "volatile" then c3 - 10 else c3
  let c5 := if allSameDirectional ta.multi_tf_trends = true then c4 + 15 else c4
  let c6 := if (news.sentiment = "bullish" ∧ direction = "BULLISH") ∨
               (news.sentiment = "bearish" ∧ direction = "BEARISH")
            then c5 + 10 else c5
  let c7 := if news.news_impact = "high" ∨ news.news_impact = "medium" then c6 + 5 else c6
  max 0 (min 100 c7)

/-- The confidence score written as a clamped sum of independent bonus terms,
with the alignment bonus requiring at least two analysed timeframes — the
amended form of claim C9's scoring description. -/
def confidenceFormula (ta : TAData) (news : NewsData) (direction : String) : ℤ :=
  max 0 (min 100 (50
    + (if ta.trend = "bullish" ∨ ta.trend = "bearish" then 10 else 0)
    + (if 70 < ta.rsi ∨ ta.rsi < 30 then 5 else 0)
    + (if ta.market_condition = "trending" then 10
       else if ta.market_condition = "volatile" then -10 else 0)
    + (if 1 < ta.multi_tf_trends.length ∧ allSameDirectional ta.multi_tf_trends = true
       then 15 else 0)
    + (if (news.sentiment = "bullish" ∧ direction = "BULLISH") ∨
          (news.sentiment = "bearish" ∧ direction = "BEARISH") then 10 else 0)
    + (if news.news_impact = "high" ∨ news.news_impact = "medium" then 5 else 0)))

/-- A 52-candle series engineered with exactly one deliberate 3-candle bullish
gap: the triple (⟨20,18⟩, ⟨30,20⟩, ⟨32,31⟩) has prev.high = 20 < 31 = next.low
and no other interior triple gaps in either direction. -/
def gapSeries52 : List Candle :=
  List.replicate 25 { high := 20, low := 18 } ++
    [{ high := 30, low := 20 }, { high := 32, low := 31 }] ++
    List.replicate 25 { high := 32, low := 30 }

/-- The same engineered single-gap shape at only 10 candles — fewer than the
`lookback + 2 = 52` the function requires. -/
def gapSeriesShort : List Candle :=
  List.replicate 4 { high := 20, low := 18 } ++
    [{ high := 30, low := 20 }, { high := 32, low := 31 }] ++
    List.replicate 4 { high := 32, low := 30 }

/-! ### Helper lemmas -/

theorem roundHalfEven_le (x : ℚ) : (roundHalfEven x : ℚ) ≤ x + 1/2 := by
  have h0 := Int.floor_le x
  unfold roundHalfEven Int.fract
  split_ifs <;> push_cast <;> linarith

theorem le_roundHalfEven (x : ℚ) : x - 1/2 ≤ (roundHalfEven x : ℚ) := by
  have h1 := Int.lt_floor_add_one x
  unfold roundHalfEven Int.fract
  split_ifs <;> push_cast <;> linarith

theorem pyRound2_le (x : ℚ) : pyRound2 x ≤ x + 1/200 := by
  unfold pyRound2
  rw [div_le_iff₀ (by norm_num : (0:ℚ) < 100)]
  have h := roundHalfEven_le (x * 100)
  linarith

theorem le_pyRound2 (x : ℚ) : x - 1/200 ≤ pyRound2 x := by
  unfold pyRound2
  rw [le_div_iff₀ (by norm_num : (0:ℚ) < 100)]
  have h := le_roundHalfEven (x * 100)
  linarith

theorem pyRound2_intCast (m : ℤ) : pyRound2 (m : ℚ) = (m : ℚ) := by
  unfold pyRound2 roundHalfEven
  have h1 : ((m : ℚ) * 100) = ((m * 100 : ℤ) : ℚ) := by push_cast; ring
  rw [h1, Int.fract_intCast, if_pos (by norm_num : (0:ℚ) < 1/2), Int.floor_intCast]
  push_cast
  ring

theorem pyRound2_lt_pyRound2 {x y : ℚ} (h : x + 1/100 < y) : pyRound2 x < pyRound2 y := by
  have h1 := pyRound2_le x
  have h2 := le_pyRound2 y
  linarith

theorem lt_pyRound2 {x y : ℚ} (h : x + 1/200 < y) : x < pyRound2 y := by
  have h2 := le_pyRound2 y
  linarith

theorem pyRound2_lt {x y : ℚ} (h : x < y - 1/200) : pyRound2 x < y := by
  have h1 := pyRound2_le x
  linarith

theorem calculate_fibonacci_levels_bullish (h l : ℚ) :
    calculate_fibonacci_levels h l "bullish" =
      { fib_0 := h, fib_236 := h - (h - l) * 0.236, fib_382 := h - (h - l) * 0.382
        fib_500 := h - (h - l) * 0.500, fib_618 := h - (h - l) * 0.618
        fib_786 := h - (h - l) * 0.786, fib_100 := l
        fib_1272 := h + (h - l) * 0.272, fib_1618 := h + (h - l) * 0.618
        fib_2618 := h + (h - l) * 1.618 } := rfl

theorem calculate_fibonacci_levels_bearish (h l : ℚ) :
    calculate_fibonacci_levels h l "bearish" =
      { fib_0 := l, fib_236 := l + (h - l) * 0.236, fib_382 := l + (h - l) * 0.382
        fib_500 := l + (h - l) * 0.500, fib_618 := l + (h - l) * 0.618
        fib_786 := l + (h - l) * 0.786, fib_100 := h
        fib_1272 := l - (h - l) * 0.272, fib_1618 := l - (h - l) * 0.618
        fib_2618 := l - (h - l) * 1.618 } := rfl

theorem calculate_pivot_points_classic (h l c : ℚ) :
    calculate_pivot_points h l c "classic" =
      { PP := (h + l + c) / 3
        R1 := 2 * ((h + l + c) / 3) - l
        S1 := 2 * ((h + l + c) / 3) - h
        R2 := (h + l + c) / 3 + (h - l)
        S2 := (h + l + c) / 3 - (h - l)
        R3 := h + 2 * ((h + l + c) / 3 - l)
        S3 := l - 2 * (h - (h + l + c) / 3)
        R4 := none, S4 := none } := rfl

theorem calculate_pivot_points_woodie (h l c : ℚ) :
    calculate_pivot_points h l c "woodie" =
      { PP := (h + l + 2 * c) / 4
        R1 := 2 * ((h + l + 2 * c) / 4) - l
        S1 := 2 * ((h + l + 2 * c) / 4) - h
        R2 := (h + l + 2 * c) / 4 + (h - l)
        S2 := (h + l + 2 * c) / 4 - (h - l)
        R3 := h + 2 * ((h + l + 2 * c) / 4 - l)
        S3 := l - 2 * (h - (h + l + 2 * c) / 4)
        R4 := none, S4 := none } := rfl

theorem calculate_pivot_points_camarilla (h l c : ℚ) :
    calculate_pivot_points h l c "camarilla" =
      { PP := (h + l + c) / 3
        R1 := c + (h - l) * 1.1 / 12
        R2 := c + (h - l) * 1.1 / 6
        R3 := c + (h - l) * 1.1 / 4
        S1 := c - (h - l) * 1.1 / 12
        S2 := c - (h - l) * 1.1 / 6
        S3 := c - (h - l) * 1.1 / 4
        R4 := some (c + (h - l) * 1.1 / 2)
        S4 := some (c - (h - l) * 1.1 / 2) } := rfl

theorem calculate_pivot_points_other (h l c : ℚ) (method : String)
    (h1 : method ≠ "classic") (h2 : method ≠ "woodie") (h3 : method ≠ "camarilla") :
    calculate_pivot_points h l c method =
      { PP := (h + l + c) / 3, R1 := (h + l + c) / 3
        R2 := (h + l + c) / 3, R3 := (h + l + c) / 3
        S1 := (h + l + c) / 3, S2 := (h + l + c) / 3
        S3 := (h + l + c) / 3, R4 := none, S4 := none } := by
  unfold calculate_pivot_points
  rw [if_neg h1, if_neg h2, if_neg h3]

/-! ### Claim theorems -/

/-- C6: on a zero-range window (high = low = p, and close = p for pivots) both
`calculate_fibonacci_levels` and `calculate_pivot_points` return a collapsed
level set in which every level equals the single price p, for every trend
argument and every pivot method; no division by zero occurs (all divisors are
the constants 3, 4, 12, 6, 4, 2) and the functions are total. -/
theorem c6_degenerate_zero_range (p : ℚ) (trend method : String) :
    calculate_fibonacci_levels p p trend =
      { fib_0 := p, fib_236 := p, fib_382 := p, fib_500 := p, fib_618 := p
        fib_786 := p, fib_100 := p, fib_1272 := p, fib_1618 := p, fib_2618 := p } ∧
    calculate_pivot_points p p p method =
      { PP := p, R1 := p, R2 := p, R3 := p, S1 := p, S2 := p, S3 := p
        R4 := if method = "camarilla" then some p else none
        S4 := if method = "camarilla" then some p else none } := by
  constructor
  · unfold calculate_fibonacci_levels
    split_ifs <;> simp only [FibLevels.mk.injEq] <;> norm_num
  · by_cases h1 : method = "classic"
    · subst h1
      rw [calculate_pivot_points_classic]
      simp only [PivotPoints.mk.injEq, reduceIte]
      refine ⟨by ring, by ring, by ring, by ring, by ring, by ring, by ring, by simp, by simp⟩
    · by_cases h2 : method = "woodie"
      · subst h2
        rw [calculate_pivot_points_woodie]
        simp only [PivotPoints.mk.injEq, reduceIte]
        refine ⟨by ring, by ring, by ring, by ring, by ring, by ring, by ring, by simp, by simp⟩
      · by_cases h3 : method = "camarilla"
        · subst h3
          rw [calculate_pivot_points_camarilla]
          simp only [PivotPoints.mk.injEq, reduceIte, Option.some.injEq]
          refine ⟨by ring, by ring, by ring, by ring, by ring, by ring, by ring,
            by ring, by ring⟩
        · rw [calculate_pivot_points_other p p p method h1 h2 h3]
          simp only [PivotPoints.mk.injEq, if_neg h3]
          refine ⟨by ring, by ring, by ring, by ring, by ring, by ring, by ring, by simp, by simp⟩

/-- C7: `calculate_fibonacci_levels 110 100 "bullish"` anchors fib_0 = 110 and
fib_100 = 100 with fib_618 < fib_500 < fib_382 all strictly inside (100, 110);
and for every pair with low < high the bullish retracement levels strictly
decrease as the ratio grows, the bullish extensions strictly increase above the
high, and the bearish anchors invert symmetrically (retracements strictly
increase from the low, extensions strictly decrease below the low). -/
theorem c7_fibonacci_levels_monotone :
    ((calculate_fibonacci_levels 110 100 "bullish").fib_0 = 110 ∧
     (calculate_fibonacci_levels 110 100 "bullish").fib_100 = 100 ∧
     (100:ℚ) < (calculate_fibonacci_levels 110 100 "bullish").fib_618 ∧
     (calculate_fibonacci_levels 110 100 "bullish").fib_618 <
       (calculate_fibonacci_levels 110 100 "bullish").fib_500 ∧
     (calculate_fibonacci_levels 110 100 "bullish").fib_500 <
       (calculate_fibonacci_levels 110 100 "bullish").fib_382 ∧
     (calculate_fibonacci_levels 110 100 "bullish").fib_382 < 110) ∧
    ∀ high low : ℚ, low < high →
      ((calculate_fibonacci_levels high low "bullish").fib_100 <
         (calculate_fibonacci_levels high low "bullish").fib_786 ∧
       (calculate_fibonacci_levels high low "bullish").fib_786 <
         (calculate_fibonacci_levels high low "bullish").fib_618 ∧
       (calculate_fibonacci_levels high low "bullish").fib_618 <
         (calculate_fibonacci_levels high low "bullish").fib_500 ∧
       (calculate_fibonacci_levels high low "bullish").fib_500 <
         (calculate_fibonacci_levels high low "bullish").fib_382 ∧
       (calculate_fibonacci_levels high low "bullish").fib_382 <
         (calculate_fibonacci_levels high low "bullish").fib_236 ∧
       (calculate_fibonacci_levels high low "bullish").fib_236 <
         (calculate_fibonacci_levels high low "bullish").fib_0 ∧
       (calculate_fibonacci_levels high low "bullish").fib_0 <
         (calculate_fibonacci_levels high low "bullish").fib_1272 ∧
       (calculate_fibonacci_levels high low "bullish").fib_1272 <
         (calculate_fibonacci_levels high low "bullish").fib_1618 ∧
       (calculate_fibonacci_levels high low "bullish").fib_1618 <
         (calculate_fibonacci_levels high low "bullish").fib_2618) ∧
      ((calculate_fibonacci_levels high low "bearish").fib_0 <
         (calculate_fibonacci_levels high low "bearish").fib_236 ∧
       (calculate_fibonacci_levels high low "bearish").fib_236 <
         (calculate_fibonacci_levels high low "bearish").fib_382 ∧
       (calculate_fibonacci_levels high low "bearish").fib_382 <
         (calculate_fibonacci_levels high low "bearish").fib_500 ∧
       (calculate_fibonacci_levels high low "bearish").fib_500 <
         (calculate_fibonacci_levels high low "bearish").fib_618 ∧
       (calculate_fibonacci_levels high low "bearish").fib_618 <
         (calculate_fibonacci_levels high low "bearish").fib_786 ∧
       (calculate_fibonacci_levels high low "bearish").fib_786 <
         (calculate_fibonacci_levels high low "bearish").fib_100 ∧
       (calculate_fibonacci_levels high low "bearish").fib_2618 <
         (calculate_fibonacci_levels high low "bearish").fib_1618 ∧
       (calculate_fibonacci_levels high low "bearish").fib_1618 <
         (calculate_fibonacci_levels high low "bearish").fib_1272 ∧
       (calculate_fibonacci_levels high low "bearish").fib_1272 <
         (calculate_fibonacci_levels high low "bearish").fib_0) := by
  constructor
  · simp only [calculate_fibonacci_levels_bullish]
    norm_num
  · intro high low hlt
    simp only [calculate_fibonacci_levels_bullish, calculate_fibonacci_levels_bearish]
    refine ⟨⟨?_, ?_, ?_, ?_, ?_, ?_, ?_, ?_, ?_⟩, ?_, ?_, ?_, ?_, ?_, ?_, ?_, ?_, ?_⟩ <;>
      linarith

/-- C7 witness: the general monotonicity part of `c7_fibonacci_levels_monotone`
instantiated at high = 110, low = 100. -/
theorem c7_fibonacci_levels_monotone_witness :
    (calculate_fibonacci_levels 110 100 "bullish").fib_618 <
      (calculate_fibonacci_levels 110 100 "bullish").fib_500 ∧
    (calculate_fibonacci_levels 110 100 "bearish").fib_2618 <
      (calculate_fibonacci_levels 110 100 "bearish").fib_1618 := by
  have h := c7_fibonacci_levels_monotone.2 110 100 (by norm_num)
  exact ⟨h.1.2.2.1, h.2.2.2.2.2.2.2.1⟩

/-- C10: any pivot method other than "classic", "woodie" and "camarilla" falls
through to the final `else`, returning a collapsed set where PP and R1-R3,
S1-S3 all equal (high + low + close) / 3, with no R4/S4 keys and no exception. -/
theorem c10_unknown_pivot_method (high low close : ℚ) (method : String)
    (h1 : method ≠ "classic") (h2 : method ≠ "woodie") (h3 : method ≠ "camarilla") :
    calculate_pivot_points high low close method =
      { PP := (high + low + close) / 3, R1 := (high + low + close) / 3
        R2 := (high + low + close) / 3, R3 := (high + low + close) / 3
        S1 := (high + low + close) / 3, S2 := (high + low + close) / 3
        S3 := (high + low + close) / 3, R4 := none, S4 := none } := by
  unfold calculate_pivot_points
  rw [if_neg h1, if_neg h2, if_neg h3]

/-- C10 witness: `c10_unknown_pivot_method` at the unrecognised method
"fibonacci" with (high, low, close) = (10, 6, 8). -/
theorem c10_unknown_pivot_method_witness :
    calculate_pivot_points 10 6 8 "fibonacci" =
      { PP := 8, R1 := 8, R2 := 8, R3 := 8, S1 := 8, S2 := 8, S3 := 8
        R4 := none, S4 := none } := by
  have h := c10_unknown_pivot_method 10 6 8 "fibonacci"
    (by decide) (by decide) (by decide)
  rw [h]
  simp only [PivotPoints.mk.injEq]
  norm_num

/-- C4: the risk-reward schedule is [2, 3] when the market condition is
"volatile" or confidence < 50; [2, 3.5, 5] when the condition is "trending"
and confidence ≥ 70; [2, 3, 4] otherwise; and on entry = 100, stop = 98,
Bullish, "trending", confidence 80, atr = 1, empty fib dict, the function
yields exactly 3 levels with strictly increasing prices [104, 107, 110] and
strictly increasing ratios [2, 3.5, 5]. -/
theorem c4_rr_schedule_and_example :
    (∀ (mc : String) (conf : ℤ), (mc = "volatile" ∨ conf < 50) →
      rrSchedule mc conf = [2, 3]) ∧
    (∀ (mc : String) (conf : ℤ), mc = "trending" → 70 ≤ conf →
      rrSchedule mc conf = [2, 3.5, 5]) ∧
    (∀ (mc : String) (conf : ℤ), ¬(mc = "volatile" ∨ conf < 50) →
      ¬(mc = "trending" ∧ 70 ≤ conf) → rrSchedule mc conf = [2, 3, 4]) ∧
    (calculate_multi_tp_levels 100 98 "BULLISH" "trending" 80 1 emptyFibDict).map
        TPLevel.price = [104, 107, 110] ∧
    (calculate_multi_tp_levels 100 98 "BULLISH" "trending" 80 1 emptyFibDict).map
        TPLevel.rr = [2, 3.5, 5] ∧
    List.Chain' (· < ·)
      ((calculate_multi_tp_levels 100 98 "BULLISH" "trending" 80 1 emptyFibDict).map
        TPLevel.price) ∧
    List.Chain' (· < ·)
      ((calculate_multi_tp_levels 100 98 "BULLISH" "trending" 80 1 emptyFibDict).map
        TPLevel.rr) := by
  have habs : |(100:ℚ) - 98| = 2 := by
    rw [show (100:ℚ) - 98 = 2 by norm_num]
    exact abs_of_pos (by norm_num)
  have h104 : pyRound2 (104:ℚ) = 104 := by
    have := pyRound2_intCast 104; norm_num at this; exact this
  have h107 : pyRound2 (107:ℚ) = 107 := by
    have := pyRound2_intCast 107; norm_num at this; exact this
  have h110 : pyRound2 (110:ℚ) = 110 := by
    have := pyRound2_intCast 110; norm_num at this; exact this
  have h4 : pyRound2 (4:ℚ) = 4 := by
    have := pyRound2_intCast 4; norm_num at this; exact this
  have h7 : pyRound2 (7:ℚ) = 7 := by
    have := pyRound2_intCast 7; norm_num at this; exact this
  have h10 : pyRound2 (10:ℚ) = 10 := by
    have := pyRound2_intCast 10; norm_num at this; exact this
  have key : calculate_multi_tp_levels 100 98 "BULLISH" "trending" 80 1 emptyFibDict =
      [⟨1, 104, 2, 4⟩, ⟨2, 107, 3.5, 7⟩, ⟨3, 110, 5, 10⟩] := by
    unfold calculate_multi_tp_levels rrSchedule
    norm_num [habs, enumFrom, snapToFib, snapTo1618, emptyFibDict, TPLevel.mk.injEq]
    norm_num [show (100:ℚ) + 2*2 = 104 by norm_num, show (100:ℚ) + 2*3.5 = 107 by norm_num,
      show (100:ℚ) + 2*5 = 110 by norm_num, h104, h107, h110, h4, h7, h10]
  refine ⟨?_, ?_, ?_, ?_, ?_, ?_, ?_⟩
  · intro mc conf h
    unfold rrSchedule
    rw [if_pos h]
  · intro mc conf hmc hconf
    subst hmc
    unfold rrSchedule
    rw [if_neg (by push_neg; exact ⟨by decide, by omega⟩), if_pos ⟨rfl, hconf⟩]
  · intro mc conf hA hB
    unfold rrSchedule
    rw [if_neg hA, if_neg hB]
  · rw [key]; simp
  · rw [key]; simp
  · rw [key]; simp [List.chain'_cons]; norm_num
  · rw [key]; simp [List.chain'_cons]; norm_num

/-- C4 witness: the three schedule branches of `c4_rr_schedule_and_example`
instantiated at concrete regimes. -/
theorem c4_rr_schedule_and_example_witness :
    rrSchedule "volatile" 80 = [2, 3] ∧
    rrSchedule "trending" 80 = [2, 3.5, 5] ∧
    rrSchedule "ranging" 60 = [2, 3, 4] := by
  refine ⟨?_, ?_, ?_⟩
  · exact c4_rr_schedule_and_example.1 "volatile" 80 (Or.inl rfl)
  · exact c4_rr_schedule_and_example.2.1 "trending" 80 rfl (by omega)
  · exact c4_rr_schedule_and_example.2.2.1 "ranging" 60
      (by push_neg; exact ⟨by decide, by omega⟩) (by simp)

theorem length_takeLast {α : Type} (n : ℕ) (l : List α) :
    (takeLast n l).length = min n l.length := by
  unfold takeLast
  rw [List.length_drop]
  omega

theorem takeLast_takeLast {α : Type} (n : ℕ) (l : List α) :
    takeLast n (takeLast n l) = takeLast n l := by
  unfold takeLast
  rw [List.length_drop, show l.length - (l.length - n) - n = 0 by omega, List.drop_zero]

/-- C5 counterexample: on seven swings whose five most recent are all lows, the
two most recent swing highs of the whole list rise (10 then 20), so the claim
predicts BOS-bullish, but the code — which only looks at `swings[-5:]` —
returns no BOS at all. -/
theorem c5_detect_choch_bos_counterexample :
    detect_choch_bos
        [{ type := "high", price := 10 }, { type := "high", price := 20 },
         { type := "low", price := 1 }, { type := "low", price := 2 },
         { type := "low", price := 3 }, { type := "low", price := 4 },
         { type := "low", price := 5 }] = (none, none) ∧
    claimed_detect_choch_bos
        [{ type := "high", price := 10 }, { type := "high", price := 20 },
         { type := "low", price := 1 }, { type := "low", price := 2 },
         { type := "low", price := 3 }, { type := "low", price := 4 },
         { type := "low", price := 5 }] = (none, some "bullish") := by
  exact ⟨by decide, by decide⟩

/-- C5 (amended): `detect_choch_bos` behaves exactly as the claim describes
when restricted to the five most recent swings — with fewer than 3 swings it
returns (none, none); otherwise it compares the two most recent swing highs
among the last five swings (BOS-bullish if the latest exceeds the prior), then
the two most recent swing lows among the last five (BOS-bearish if the latest
is lower); and the CHOCH component is none for every input. -/
theorem c5_detect_choch_bos_amended (swings : List Swing) :
    (detect_choch_bos swings).1 = none ∧
    detect_choch_bos swings = claimed_detect_choch_bos (takeLast 5 swings) := by
  constructor
  · simp only [detect_choch_bos]
    split_ifs <;> rfl
  · simp only [detect_choch_bos, claimed_detect_choch_bos, length_takeLast]
    by_cases h : swings.length < 3
    · rw [if_pos h, if_pos (by omega : min 5 swings.length < 3)]
    · rw [if_neg h, if_neg (by omega : ¬min 5 swings.length < 3)]

/-- C9 counterexample: with a single analysed timeframe whose trend is
bullish (primary trend bullish, RSI 50, market condition unknown, neutral
minimal news), the claim's rule — which grants +15 even when exactly one
timeframe was analysed — yields 75, but the code requires more than one
timeframe and yields 60. -/
theorem c9_confidence_counterexample :
    calculate_confidence
        { trend := "bullish", rsi := 50, market_condition := "unknown"
          multi_tf_trends := ["bullish"] }
        { sentiment := "neutral", news_impact := "minimal" } "BULLISH" = 60 ∧
    claimedConfidence
        { trend := "bullish", rsi := 50, market_condition := "unknown"
          multi_tf_trends := ["bullish"] }
        { sentiment := "neutral", news_impact := "minimal" } "BULLISH" = 75 := by
  exact ⟨by decide, by decide⟩

set_option maxHeartbeats 1600000 in
/-- C9 (amended): the confidence score equals the clamped sum of the base 50
and the individual bonuses, where the +15 multi-timeframe alignment bonus
requires MORE THAN ONE analysed timeframe agreeing on a directional trend (a
single timeframe never receives it); the result lies in [0, 100] for every
input. -/
theorem c9_confidence_amended (ta : TAData) (news : NewsData) (direction : String) :
    calculate_confidence ta news direction = confidenceFormula ta news direction ∧
    0 ≤ calculate_confidence ta news direction ∧
    calculate_confidence ta news direction ≤ 100 := by
  have heq : calculate_confidence ta news direction = confidenceFormula ta news direction := by
    simp only [calculate_confidence, confidenceFormula]
    split_ifs <;> omega
  refine ⟨heq, ?_, ?_⟩ <;> rw [heq] <;> unfold confidenceFormula
  · exact le_max_left 0 _
  · exact max_le (by norm_num) (min_le_left _ _)

theorem foldl_wilderStep_nonneg (p : ℕ) (hp : 1 ≤ p) (ds : List ℚ) :
    ∀ init : ℚ × ℚ, 0 ≤ init.1 → 0 ≤ init.2 →
      0 ≤ (ds.foldl (wilderStep p) init).1 ∧ 0 ≤ (ds.foldl (wilderStep p) init).2 := by
  induction ds with
  | nil => intro init h1 h2; exact ⟨h1, h2⟩
  | cons d rest ih =>
    intro init h1 h2
    have hpc : (1:ℚ) ≤ (p:ℚ) := by exact_mod_cast hp
    apply ih
    · show 0 ≤ (init.1 * ((p:ℚ) - 1) + gainOf d) / (p:ℚ)
      apply div_nonneg _ (by linarith)
      exact add_nonneg (mul_nonneg h1 (by linarith)) (le_max_right d 0)
    · show 0 ≤ (init.2 * ((p:ℚ) - 1) + lossOf d) / (p:ℚ)
      apply div_nonneg _ (by linarith)
      exact add_nonneg (mul_nonneg h2 (by linarith)) (le_max_right (-d) 0)

theorem wilderInit_nonneg (closes : List ℚ) (p : ℕ) :
    0 ≤ (wilderInit closes p).1 ∧ 0 ≤ (wilderInit closes p).2 := by
  constructor <;>
    exact div_nonneg
      (List.sum_nonneg (by
        intro x hx
        obtain ⟨d, _, rfl⟩ := List.mem_map.mp hx
        exact le_max_right _ 0))
      (by positivity)

theorem wilderRSI_bounds (closes : List ℚ) (p : ℕ) (hp : 1 ≤ p) :
    0 ≤ wilderRSI closes p ∧ wilderRSI closes p ≤ 100 := by
  unfold wilderRSI
  obtain ⟨hg, hl⟩ := foldl_wilderStep_nonneg p hp ((deltas closes).drop p)
    (wilderInit closes p) (wilderInit_nonneg closes p).1 (wilderInit_nonneg closes p).2
  set F := ((deltas closes).drop p).foldl (wilderStep p) (wilderInit closes p) with hF
  by_cases hz : F.1 + F.2 = 0
  · rw [if_pos hz]
    norm_num
  · rw [if_neg hz]
    have hsum : 0 < F.1 + F.2 := lt_of_le_of_ne (add_nonneg hg hl) (Ne.symm hz)
    constructor
    · exact div_nonneg (mul_nonneg (by norm_num) hg) (le_of_lt hsum)
    · rw [div_le_iff₀ hsum]
      linarith

/-- C3 counterexample: on the empty closes list `rsi[-1]` indexes an empty
array and raises IndexError (modelled as `none`), so "never raises an
exception, for any input including the empty list" fails. -/
theorem c3_rsi_counterexample : calculate_rsi [] 14 = none := by
  unfold calculate_rsi
  rw [if_pos rfl]

/-- C3 (amended): for every NONEMPTY closes list and every period p ≥ 2 (the
range TA-Lib accepts), `calculate_rsi` returns a value in [0, 100] and returns
exactly 50 whenever `len(closes) ≤ p`; the empty list (IndexError from
`rsi[-1]`) and p < 2 (TA_BAD_PARAM) raise instead. -/
theorem c3_rsi_amended (closes : List ℚ) (period : ℕ)
    (hne : closes ≠ []) (hp : 2 ≤ period) :
    ∃ r, calculate_rsi closes period = some r ∧ 0 ≤ r ∧ r ≤ 100 ∧
      (closes.length ≤ period → r = 50) := by
  unfold calculate_rsi
  rw [if_neg hne, if_neg (by omega)]
  by_cases hlen : closes.length ≤ period
  · rw [if_pos hlen]
    exact ⟨50, rfl, by norm_num, by norm_num, fun _ => rfl⟩
  · rw [if_neg hlen]
    obtain ⟨h0, h100⟩ := wilderRSI_bounds closes period (by omega)
    exact ⟨_, rfl, h0, h100, fun h => absurd h hlen⟩

/-- C3 witness: `c3_rsi_amended` at closes = [1, 2], period = 14 (insufficient
history), giving the neutral default 50. -/
theorem c3_rsi_amended_witness : calculate_rsi [1, 2] 14 = some 50 := by
  obtain ⟨r, hr, _, _, h50⟩ := c3_rsi_amended [1, 2] 14 (by simp) (by omega)
  rw [hr, h50 (by simp)]

theorem fvgsAt_size_pos (prev nxt : Candle) (g : FVG) (hg : g ∈ fvgsAt prev nxt) :
    0 < g.size := by
  unfold fvgsAt at hg
  split_ifs at hg with h1 h2 h3 <;> simp at hg <;>
    first
    | (rcases hg with hg | hg <;> subst hg <;> simp <;> linarith)
    | (subst hg; simp; linarith)

theorem collectFVGs_size_pos :
    ∀ (l : List Candle) (g : FVG), g ∈ collectFVGs l → 0 < g.size := by
  intro l
  induction l with
  | nil => intro g hg; simp [collectFVGs] at hg
  | cons p t ih =>
    match t with
    | [] => intro g hg; simp [collectFVGs] at hg
    | [c] => intro g hg; simp [collectFVGs] at hg
    | c :: n :: rest =>
      intro g hg
      rw [show collectFVGs (p :: c :: n :: rest) =
          fvgsAt p n ++ collectFVGs (c :: n :: rest) from rfl] at hg
      rcases List.mem_append.mp hg with h | h
      · exact fvgsAt_size_pos p n g h
      · exact ih g h

/-- C8 counterexample: a 10-candle series engineered with exactly one
deliberate 3-candle bullish gap (prev.high = 20 < 31 = next.low at one
interior position, nowhere else) — the scan of its interior triples finds that
one gap, yet `find_fair_value_gaps` with the default lookback 50 returns [],
because the series is shorter than lookback + 2; so the claim's "on any candle
series engineered with exactly one deliberate 3-candle gap it returns exactly
one FVG" is false as stated. -/
theorem c8_fvg_counterexample :
    collectFVGs gapSeriesShort =
      [{ type := "bullish", top := 31, bottom := 20, mid := 51/2, size := 11 }] ∧
    find_fair_value_gaps gapSeriesShort 50 = [] := by
  constructor
  · have hs : gapSeriesShort =
        [⟨20, 18⟩, ⟨20, 18⟩, ⟨20, 18⟩, ⟨20, 18⟩, ⟨30, 20⟩, ⟨32, 31⟩, ⟨32, 30⟩, ⟨32, 30⟩,
         ⟨32, 30⟩, ⟨32, 30⟩] := by decide
    rw [hs]
    norm_num [collectFVGs, fvgsAt, FVG.mk.injEq]
  · unfold find_fair_value_gaps
    rw [if_pos (by decide)]

/-- C8 (amended): every returned fair-value gap has size > 0 and at most 5
gaps are returned, for every input; when the series has at least lookback + 2
candles the result is exactly the 5 most recent gaps collected over the last
`lookback` candles (shorter series return [] even when they contain a gap);
within the scanned window the loop body records a bullish gap at an interior
candle exactly when prev.high < next.low and a bearish gap exactly when
prev.low > next.high; and on the 52-candle engineered single-gap series the
function returns exactly one bullish FVG of size 11. -/
theorem c8_fvg_amended :
    (∀ (candles : List Candle) (lookback : ℕ) (g : FVG),
        g ∈ find_fair_value_gaps candles lookback → 0 < g.size) ∧
    (∀ (candles : List Candle) (lookback : ℕ),
        (find_fair_value_gaps candles lookback).length ≤ 5) ∧
    (∀ (candles : List Candle) (lookback : ℕ), lookback + 2 ≤ candles.length →
        find_fair_value_gaps candles lookback =
          takeLast 5 (collectFVGs (takeLast lookback candles))) ∧
    (∀ prev nxt : Candle,
        ((∃ g ∈ fvgsAt prev nxt, g.type = "bullish") ↔ prev.high < nxt.low)) ∧
    (∀ prev nxt : Candle,
        ((∃ g ∈ fvgsAt prev nxt, g.type = "bearish") ↔ prev.low > nxt.high)) ∧
    find_fair_value_gaps gapSeries52 50 =
      [{ type := "bullish", top := 31, bottom := 20, mid := 51/2, size := 11 }] := by
  refine ⟨?_, ?_, ?_, ?_, ?_, ?_⟩
  · intro candles lookback g hg
    unfold find_fair_value_gaps at hg
    split_ifs at hg with h
    · simp at hg
    · exact collectFVGs_size_pos _ g (List.mem_of_mem_drop hg)
  · intro candles lookback
    unfold find_fair_value_gaps
    split_ifs with h
    · simp
    · rw [length_takeLast]; omega
  · intro candles lookback h
    unfold find_fair_value_gaps
    rw [if_neg (by omega)]
  · intro prev nxt
    constructor
    · rintro ⟨g, hg, ht⟩
      unfold fvgsAt at hg
      split_ifs at hg with h1 h2 h3 <;> simp_all
    · intro h1
      refine ⟨{ type := "bullish", top := nxt.low, bottom := prev.high
                mid := (nxt.low + prev.high) / 2, size := nxt.low - prev.high }, ?_, rfl⟩
      unfold fvgsAt
      rw [if_pos h1]
      simp
  · intro prev nxt
    constructor
    · rintro ⟨g, hg, ht⟩
      unfold fvgsAt at hg
      split_ifs at hg with h1 h2 h3 <;> simp_all
    · intro h1
      refine ⟨{ type := "bearish", top := prev.low, bottom := nxt.high
                mid := (prev.low + nxt.high) / 2, size := prev.low - nxt.high }, ?_, rfl⟩
      unfold fvgsAt
      rw [if_pos h1]
      simp
  · unfold find_fair_value_gaps
    rw [if_neg (by decide)]
    have hwin : takeLast 50 gapSeries52 =
        [⟨20, 18⟩, ⟨20, 18⟩, ⟨20, 18⟩, ⟨20, 18⟩, ⟨20, 18⟩, ⟨20, 18⟩, ⟨20, 18⟩, ⟨20, 18⟩,
         ⟨20, 18⟩, ⟨20, 18⟩, ⟨20, 18⟩, ⟨20, 18⟩, ⟨20, 18⟩, ⟨20, 18⟩, ⟨20, 18⟩, ⟨20, 18⟩,
         ⟨20, 18⟩, ⟨20, 18⟩, ⟨20, 18⟩, ⟨20, 18⟩, ⟨20, 18⟩, ⟨20, 18⟩, ⟨20, 18⟩, ⟨30, 20⟩,
         ⟨32, 31⟩, ⟨32, 30⟩, ⟨32, 30⟩, ⟨32, 30⟩, ⟨32, 30⟩, ⟨32, 30⟩, ⟨32, 30⟩, ⟨32, 30⟩,
         ⟨32, 30⟩, ⟨32, 30⟩, ⟨32, 30⟩, ⟨32, 30⟩, ⟨32, 30⟩, ⟨32, 30⟩, ⟨32, 30⟩, ⟨32, 30⟩,
         ⟨32, 30⟩, ⟨32, 30⟩, ⟨32, 30⟩, ⟨32, 30⟩, ⟨32, 30⟩, ⟨32, 30⟩, ⟨32, 30⟩, ⟨32, 30⟩,
         ⟨32, 30⟩, ⟨32, 30⟩] := by decide
    rw [hwin]
    norm_num [collectFVGs, fvgsAt, takeLast, FVG.mk.injEq]

theorem snapToFib_empty (tp atr : ℚ) : snapToFib tp atr emptyFibDict = tp := rfl

/-- C1 counterexample: with entry 100, stop 98 (stop < entry), direction
Bullish, market condition "ranging", confidence 60, ATR 1.5 and fib_1272 = 105
present, the first two raw targets 104 and 106 BOTH snap to the Fibonacci
1.272 extension 105, so the emitted take-profit prices are [105, 105, 108] —
not strictly increasing, refuting the claimed strict ordering of snapped
targets (while the recorded risk-reward ratios [2, 3, 4] still increase). -/
theorem c1_tp_ordering_counterexample :
    (calculate_multi_tp_levels 100 98 "BULLISH" "ranging" 60 (3/2)
        { fib_500 := none, fib_618 := none, fib_1272 := some 105, fib_1618 := none }).map
      TPLevel.price = [105, 105, 108] ∧
    ¬ List.Chain' (· < ·)
      ((calculate_multi_tp_levels 100 98 "BULLISH" "ranging" 60 (3/2)
          { fib_500 := none, fib_618 := none, fib_1272 := some 105, fib_1618 := none }).map
        TPLevel.price) := by
  have habs : |(100:ℚ) - 98| = 2 := by norm_num
  have h105 : pyRound2 (105:ℚ) = 105 := by
    have := pyRound2_intCast 105; norm_num at this; exact this
  have h108 : pyRound2 (108:ℚ) = 108 := by
    have := pyRound2_intCast 108; norm_num at this; exact this
  have h5 : pyRound2 (5:ℚ) = 5 := by
    have := pyRound2_intCast 5; norm_num at this; exact this
  have h8 : pyRound2 (8:ℚ) = 8 := by
    have := pyRound2_intCast 8; norm_num at this; exact this
  have key : calculate_multi_tp_levels 100 98 "BULLISH" "ranging" 60 (3/2)
      { fib_500 := none, fib_618 := none, fib_1272 := some 105, fib_1618 := none } =
      [⟨1, 105, 2, 5⟩, ⟨2, 105, 3, 5⟩, ⟨3, 108, 4, 8⟩] := by
    unfold calculate_multi_tp_levels rrSchedule
    norm_num [habs, enumFrom, snapToFib, snapTo1618, TPLevel.mk.injEq]
    norm_num [h105, h108, h5, h8]
  rw [key]
  constructor
  · simp
  · norm_num [List.chain'_cons]

/-- C1 (amended): when no Fibonacci snapping can occur (empty fib level set)
and the risk |entry − stop| exceeds 0.01 (so 2-decimal rounding cannot
collapse adjacent targets), the emitted trade levels satisfy the invariant:
for Bullish with stop < entry, stop_loss < entry < price₁ < price₂ < …, and
for Bearish with entry < stop the mirrored strictly decreasing ordering; in
both directions the risk-reward ratios strictly increase. With snapping
enabled the ordering can fail, as the counterexample shows. -/
theorem c1_tp_ordering_amended (entry stop_loss : ℚ) (mc : String) (conf : ℤ) (atr : ℚ) :
    (stop_loss < entry → 1/100 < entry - stop_loss →
      List.Chain' (· < ·) (stop_loss :: entry ::
        (calculate_multi_tp_levels entry stop_loss "BULLISH" mc conf atr
          emptyFibDict).map TPLevel.price) ∧
      List.Chain' (· < ·)
        ((calculate_multi_tp_levels entry stop_loss "BULLISH" mc conf atr
          emptyFibDict).map TPLevel.rr)) ∧
    (entry < stop_loss → 1/100 < stop_loss - entry →
      List.Chain' (· > ·) (stop_loss :: entry ::
        (calculate_multi_tp_levels entry stop_loss "BEARISH" mc conf atr
          emptyFibDict).map TPLevel.price) ∧
      List.Chain' (· < ·)
        ((calculate_multi_tp_levels entry stop_loss "BEARISH" mc conf atr
          emptyFibDict).map TPLevel.rr)) := by
  constructor
  · intro h1 h2
    have habs : |entry - stop_loss| = entry - stop_loss := abs_of_pos (by linarith)
    simp only [calculate_multi_tp_levels, rrSchedule, String.reduceEq, if_true, if_false]
    split_ifs with hA hB <;>
      (refine ⟨?_, by norm_num [enumFrom, Function.comp, List.chain'_cons]⟩
       simp only [enumFrom, List.map_cons, List.map_nil, habs, snapToFib_empty,
         List.chain'_cons, List.chain'_singleton, and_true])
    · exact ⟨h1, lt_pyRound2 (by linarith), pyRound2_lt_pyRound2 (by linarith)⟩
    · exact ⟨h1, lt_pyRound2 (by linarith), pyRound2_lt_pyRound2 (by nlinarith),
        pyRound2_lt_pyRound2 (by nlinarith)⟩
    · exact ⟨h1, lt_pyRound2 (by linarith), pyRound2_lt_pyRound2 (by linarith),
        pyRound2_lt_pyRound2 (by linarith)⟩
  · intro h1 h2
    have habs : |entry - stop_loss| = stop_loss - entry := by
      rw [abs_of_neg (by linarith : entry - stop_loss < 0)]
      ring
    simp only [calculate_multi_tp_levels, rrSchedule, String.reduceEq, if_true, if_false]
    split_ifs with hA hB <;>
      (refine ⟨?_, by norm_num [enumFrom, Function.comp, List.chain'_cons]⟩
       simp only [enumFrom, List.map_cons, List.map_nil, habs, snapToFib_empty,
         List.chain'_cons, List.chain'_singleton, and_true])
    · exact ⟨h1, pyRound2_lt (by linarith), pyRound2_lt_pyRound2 (by linarith)⟩
    · exact ⟨h1, pyRound2_lt (by linarith), pyRound2_lt_pyRound2 (by nlinarith),
        pyRound2_lt_pyRound2 (by nlinarith)⟩
    · exact ⟨h1, pyRound2_lt (by linarith), pyRound2_lt_pyRound2 (by linarith),
        pyRound2_lt_pyRound2 (by linarith)⟩

/-- C1 witness: `c1_tp_ordering_amended` at entry 100, stop 98, "ranging",
confidence 60, ATR 1 for Bullish, and entry 100, stop 102 for Bearish. -/
theorem c1_tp_ordering_amended_witness :
    List.Chain' (· < ·) ((98:ℚ) :: 100 ::
      (calculate_multi_tp_levels 100 98 "BULLISH" "ranging" 60 1
        emptyFibDict).map TPLevel.price) ∧
    List.Chain' (· > ·) ((102:ℚ) :: 100 ::
      (calculate_multi_tp_levels 100 102 "BEARISH" "ranging" 60 1
        emptyFibDict).map TPLevel.price) := by
  exact ⟨((c1_tp_ordering_amended 100 98 "ranging" 60 1).1
            (by norm_num) (by norm_num)).1,
         ((c1_tp_ordering_amended 100 102 "ranging" 60 1).2
            (by norm_num) (by norm_num)).1⟩

theorem sortDesc_head_max :
    ∀ l : List EntryCandidate, l ≠ [] →
      ∃ h t, sortDescByConfidence l = h :: t ∧ h ∈ l ∧
        ∀ x ∈ l, x.confidence ≤ h.confidence := by
  intro l
  induction l with
  | nil => intro hne; exact absurd rfl hne
  | cons a t ih =>
    intro _
    cases t with
    | nil => exact ⟨a, [], rfl, by simp, by simp⟩
    | cons b t2 =>
      obtain ⟨h, s, hsort, hmem, hmax⟩ := ih (by simp)
      have hstep : sortDescByConfidence (a :: b :: t2) =
          insertDescByConfidence a (sortDescByConfidence (b :: t2)) := rfl
      rw [hstep, hsort]
      unfold insertDescByConfidence
      by_cases hc : h.confidence ≤ a.confidence
      · rw [if_pos hc]
        refine ⟨a, h :: s, rfl, by simp, ?_⟩
        intro x hx
        rcases List.mem_cons.mp hx with rfl | hx
        · exact le_refl _
        · exact le_trans (hmax x hx) hc
      · rw [if_neg hc]
        push_neg at hc
        refine ⟨h, insertDescByConfidence a s, rfl, List.mem_cons_of_mem a hmem, ?_⟩
        intro x hx
        rcases List.mem_cons.mp hx with rfl | hx
        · exact le_of_lt hc
        · exact hmax x hx

theorem baseEntryCandidates_confidence (dir : String) (fib : FibDict)
    (obs : List OrderBlock) (c : EntryCandidate)
    (hc : c ∈ baseEntryCandidates dir fib obs) :
    c.confidence = 90 ∨ c.confidence = 75 ∨ c.confidence = 85 := by
  unfold baseEntryCandidates at hc
  simp only [List.mem_append, or_assoc] at hc
  rcases hc with h | h | h
  · rcases h618 : fib.fib_618 with _ | p618 <;> rw [h618] at h
    · simp at h
    · simp at h
      subst h
      exact Or.inl rfl
  · rcases h500 : fib.fib_500 with _ | p500 <;> rw [h500] at h
    · simp at h
    · simp at h
      subst h
      exact Or.inr (Or.inl rfl)
  · obtain ⟨ob, hob, rfl⟩ := List.mem_map.mp h
    exact Or.inr (Or.inr rfl)

theorem fallbackCandidate_not_mem_base (dir : String) (cp : ℚ) (fib : FibDict)
    (obs : List OrderBlock) :
    fallbackCandidate dir cp ∉ baseEntryCandidates dir fib obs := by
  intro hmem
  rcases baseEntryCandidates_confidence dir fib obs _ hmem with h | h | h <;>
    simp [fallbackCandidate] at h

theorem entryCandidates_ne_nil (cp : ℚ) (dir : String) (fib : FibDict)
    (obs : List OrderBlock) (mc : String) :
    entryCandidates cp dir fib obs mc ≠ [] := by
  simp only [entryCandidates]
  split_ifs with h
  · simp
  · exact (not_or.mp h).1

/-- C2 counterexample: with fib_618 present (so the Fibonacci candidate with
confidence 90 exists), order blocks empty and market condition "ranging", the
fallback "immediate entry at current price" candidate is NOT in the pool — it
is not always included; and with market condition "trending" the pool is the
Fibonacci candidate plus the fallback, so the fallback is not the only
candidate when trending. -/
theorem c2_optimal_entry_counterexample :
    fallbackCandidate "BULLISH" 100 ∉
      entryCandidates 100 "BULLISH"
        { fib_500 := none, fib_618 := some 95, fib_1272 := none, fib_1618 := none }
        [] "ranging" ∧
    entryCandidates 100 "BULLISH"
        { fib_500 := none, fib_618 := some 95, fib_1272 := none, fib_1618 := none }
        [] "trending" ≠ [fallbackCandidate "BULLISH" 100] ∧
    fallbackCandidate "BULLISH" 100 ∈
      entryCandidates 100 "BULLISH"
        { fib_500 := none, fib_618 := some 95, fib_1272 := none, fib_1618 := none }
        [] "trending" := by
  exact ⟨by decide, by decide, by decide⟩

/-- C2 (amended): the fallback candidate (confidence 70) is in the pool
exactly when the weighted candidate list is empty or the market condition is
"trending" (when trending it is appended IN ADDITION to any Fibonacci or
order-block candidates, not as the only candidate); and the function returns a
member of the pool whose confidence is maximal. -/
theorem c2_optimal_entry_amended (cp : ℚ) (dir : String) (fib : FibDict)
    (obs : List OrderBlock) (atr : ℚ) (mc : String) :
    (fallbackCandidate dir cp ∈ entryCandidates cp dir fib obs mc ↔
      baseEntryCandidates dir fib obs = [] ∨ mc = "trending") ∧
    calculate_optimal_entry cp dir fib obs atr mc ∈ entryCandidates cp dir fib obs mc ∧
    ∀ c ∈ entryCandidates cp dir fib obs mc,
      c.confidence ≤ (calculate_optimal_entry cp dir fib obs atr mc).confidence := by
  obtain ⟨h, t, hsort, hmem, hmax⟩ :=
    sortDesc_head_max (entryCandidates cp dir fib obs mc)
      (entryCandidates_ne_nil cp dir fib obs mc)
  have hres : calculate_optimal_entry cp dir fib obs atr mc = h := by
    unfold calculate_optimal_entry
    rw [hsort]
  refine ⟨⟨?_, ?_⟩, ?_, ?_⟩
  · intro hin
    simp only [entryCandidates] at hin
    split_ifs at hin with hcond
    · exact hcond
    · exact absurd hin (fallbackCandidate_not_mem_base dir cp fib obs)
  · intro hcond
    simp only [entryCandidates]
    rw [if_pos hcond]
    simp
  · rw [hres]; exact hmem
  · intro c hc; rw [hres]; exact hmax c hc

/-- C2 witness: `c2_optimal_entry_amended` at the counterexample input with
market condition "trending" — the fallback is in the pool (the base list is
nonempty but the condition is trending), and the returned candidate is the
Fibonacci 0.618 one with maximal confidence 90 ≥ 70. -/
theorem c2_optimal_entry_amended_witness :
    fallbackCandidate "BULLISH" 100 ∈
      entryCandidates 100 "BULLISH"
        { fib_500 := none, fib_618 := some 95, fib_1272 := none, fib_1618 := none }
        [] "trending" ∧
    (fallbackCandidate "BULLISH" 100).confidence ≤
      (calculate_optimal_entry 100 "BULLISH"
        { fib_500 := none, fib_618 := some 95, fib_1272 := none, fib_1618 := none }
        [] 1 "trending").confidence := by
  constructor
  · exact (c2_optimal_entry_amended 100 "BULLISH"
      { fib_500 := none, fib_618 := some 95, fib_1272 := none, fib_1618 := none }
      [] 1 "trending").1.mpr (Or.inr rfl)
  · apply (c2_optimal_entry_amended 100 "BULLISH"
      { fib_500 := none, fib_618 := some 95, fib_1272 := none, fib_1618 := none }
      [] 1 "trending").2.2
    exact (c2_optimal_entry_amended 100 "BULLISH"
      { fib_500 := none, fib_618 := some 95, fib_1272 := none, fib_1618 := none }
      [] 1 "trending").1.mpr (Or.inr rfl)

/-- C8 witness: `c8_fvg_amended` instantiated at the engineered 52-candle
series — its single returned gap has positive size, and the window equation
holds there. -/
theorem c8_fvg_amended_witness :
    (0:ℚ) <
      (FVG.mk "bullish" 31 20 (51/2) 11).size ∧
    find_fair_value_gaps gapSeries52 50 =
      takeLast 5 (collectFVGs (takeLast 50 gapSeries52)) := by
  constructor
  · apply c8_fvg_amended.1 gapSeries52 50
    rw [c8_fvg_amended.2.2.2.2.2]
    simp
  · exact c8_fvg_amended.2.2.1 gapSeries52 50 (by decide)

end AITrading
